import Mathlib

/-!
Shallow embedding of the circular-motion physics model from
src/src/pages/SimulationPage.tsx (class CircularMotionSimulationModel).

Scalars are modelled as exact rationals.  The host math library
(Math.PI, Math.cos, Math.sin) is abstracted as a MathEnv record of a
constant and two functions; every definition that the source writes
with Math.* takes the environment as an explicit argument.
-/

namespace CircularMotion

/-- The host math library: Math.PI, Math.cos, Math.sin. -/
structure MathEnv where
  pi : ℚ
  cos : ℚ → ℚ
  sin : ℚ → ℚ

/-- interface Vector2 { x: number; y: number } -/
structure Vector2 where
  x : ℚ
  y : ℚ
deriving DecidableEq, Repr

/-- enum SimulationState -/
inductive SimulationState where
  | NORMAL_CIRCULAR_MOTION
  | ROPE_BROKEN
deriving DecidableEq, Repr

/-- enum RotationDirection -/
inductive RotationDirection where
  | CLOCKWISE
  | COUNTERCLOCKWISE
deriving DecidableEq, Repr

/-- The mutable fields of class CircularMotionSimulationModel. -/
structure Model where
  angle : ℚ
  mass : ℚ
  angularVelocity : ℚ
  maxTension : ℚ
  radius : ℚ
  centerPosition : Vector2
  rotationDirection : RotationDirection
  state : SimulationState
  brokenPosition : Vector2
  brokenVelocity : Vector2
  trajectoryPoints : List Vector2
  maxTrajectoryPoints : ℕ
  trajectoryCounter : ℕ
  trajectoryInterval : ℕ
deriving DecidableEq, Repr

/-- private timeScale: number = 0.016 -/
def timeScale : ℚ := 16 / 1000

/-- private pixelsPerMeter: number = 100 -/
def pixelsPerMeter : ℚ := 100

/-- The field initializers of CircularMotionSimulationModel. -/
def initialModel : Model where
  angle := 0
  mass := 1
  angularVelocity := 1 / 2
  maxTension := 5
  radius := 1
  centerPosition := { x := 300, y := 220 }
  rotationDirection := .CLOCKWISE
  state := .NORMAL_CIRCULAR_MOTION
  brokenPosition := { x := 0, y := 0 }
  brokenVelocity := { x := 0, y := 0 }
  trajectoryPoints := []
  maxTrajectoryPoints := 200
  trajectoryCounter := 0
  trajectoryInterval := 3

/-- get centripetalForce(): mass * angularVelocity * angularVelocity * radius -/
def centripetalForce (m : Model) : ℚ :=
  m.mass * m.angularVelocity * m.angularVelocity * m.radius

/-- get linearVelocity(): angularVelocity * radius -/
def linearVelocity (m : Model) : ℚ :=
  m.angularVelocity * m.radius

/-- getBlockPosition(): circle point (with the 0.3 oblique squash on y)
when NORMAL, brokenPosition verbatim when BROKEN. -/
def getBlockPosition (env : MathEnv) (m : Model) : Vector2 :=
  match m.state with
  | .NORMAL_CIRCULAR_MOTION =>
      let radiusPixels := m.radius * pixelsPerMeter
      { x := m.centerPosition.x + radiusPixels * env.cos m.angle
        y := m.centerPosition.y + radiusPixels * env.sin m.angle * (3 / 10) }
  | .ROPE_BROKEN => m.brokenPosition

/-- private getCurrentVelocity(): tangent angle is angle + PI/2; components
are linearVelocity times cos/sin of it (no projection squash). -/
def getCurrentVelocity (env : MathEnv) (m : Model) : Vector2 :=
  let tangentAngle := m.angle + env.pi / 2
  let velocity := linearVelocity m
  { x := velocity * env.cos tangentAngle
    y := velocity * env.sin tangentAngle }

/-- private breakRope(): snapshot position and velocity, set state BROKEN. -/
def breakRope (env : MathEnv) (m : Model) : Model :=
  let currentPosition := getBlockPosition env m
  let currentVelocity := getCurrentVelocity env m
  { m with
    state := .ROPE_BROKEN
    brokenPosition := currentPosition
    brokenVelocity := currentVelocity }

/-- private collectTrajectoryPoint(): increment the counter; once it reaches
trajectoryInterval, push the current block position, drop the oldest point
if over capacity, and reset the counter. -/
def collectTrajectoryPoint (env : MathEnv) (m : Model) : Model :=
  let c := m.trajectoryCounter + 1
  if c ≥ m.trajectoryInterval then
    let pts := m.trajectoryPoints ++ [getBlockPosition env m]
    let pts' := if pts.length > m.maxTrajectoryPoints then pts.tail else pts
    { m with trajectoryPoints := pts', trajectoryCounter := 0 }
  else
    { m with trajectoryCounter := c }

/-- The angle update of step() in the non-breaking NORMAL branch:
angle += angularVelocity * timeScale * directionMultiplier, then wrap. -/
def advanceAngle (env : MathEnv) (m : Model) : Model :=
  let directionMultiplier : ℚ :=
    if m.rotationDirection = .CLOCKWISE then 1 else -1
  let a := m.angle + m.angularVelocity * timeScale * directionMultiplier
  let a' :=
    if a ≥ 2 * env.pi then a - 2 * env.pi
    else if a < 0 then a + 2 * env.pi
    else a
  { m with angle := a' }

/-- The brokenPosition update of step() in the BROKEN branch:
velocity (m/s) converted to pixels/frame, with the 0.3 perspective
factor on y only. -/
def advanceBrokenPosition (m : Model) : Model :=
  let velocityPixelsPerFrame : Vector2 :=
    { x := m.brokenVelocity.x * pixelsPerMeter * timeScale
      y := m.brokenVelocity.y * pixelsPerMeter * timeScale * (3 / 10) }
  { m with brokenPosition :=
      { x := m.brokenPosition.x + velocityPixelsPerFrame.x
        y := m.brokenPosition.y + velocityPixelsPerFrame.y } }

/-- step(deltaTime): in NORMAL state, return immediately if
angularVelocity is 0 (skipping trajectory collection), break the rope if
centripetalForce exceeds maxTension, otherwise advance the angle; in
BROKEN state advance brokenPosition; finally collect a trajectory point
(except on the early return). deltaTime is unused by the source body. -/
def step (env : MathEnv) (m : Model) : Model :=
  match m.state with
  | .NORMAL_CIRCULAR_MOTION =>
      if m.angularVelocity = 0 then
        m
      else if centripetalForce m > m.maxTension then
        collectTrajectoryPoint env (breakRope env m)
      else
        collectTrajectoryPoint env (advanceAngle env m)
  | .ROPE_BROKEN =>
      collectTrajectoryPoint env (advanceBrokenPosition m)

/-- reset(): restore state, angle, broken snapshot and trajectory buffer. -/
def reset (m : Model) : Model :=
  { m with
    state := .NORMAL_CIRCULAR_MOTION
    angle := 0
    brokenPosition := { x := 0, y := 0 }
    brokenVelocity := { x := 0, y := 0 }
    trajectoryPoints := []
    trajectoryCounter := 0 }

/-- clearTrajectory(): empty the buffer and reset the counter. -/
def clearTrajectory (m : Model) : Model :=
  { m with trajectoryPoints := [], trajectoryCounter := 0 }

/-- An external interaction with the model between frames: a step of the
animation driver, a direct field assignment from one of the parameter
controls, or one of the UI action buttons. -/
inductive Action where
  | step
  | setMass (q : ℚ)
  | setAngularVelocity (q : ℚ)
  | setMaxTension (q : ℚ)
  | setRadius (q : ℚ)
  | setRotationDirection (d : RotationDirection)
  | clearTrajectory
  | reset
deriving DecidableEq, Repr

/-- Apply one external interaction to the model. -/
def applyAction (env : MathEnv) : Action → Model → Model
  | .step, m => step env m
  | .setMass q, m => { m with mass := q }
  | .setAngularVelocity q, m => { m with angularVelocity := q }
  | .setMaxTension q, m => { m with maxTension := q }
  | .setRadius q, m => { m with radius := q }
  | .setRotationDirection d, m => { m with rotationDirection := d }
  | .clearTrajectory, m => clearTrajectory m
  | .reset, m => reset m

/-- Apply a chronological list of interactions. -/
def applyActions (env : MathEnv) (acts : List Action) (m : Model) : Model :=
  acts.foldl (fun s a => applyAction env a s) m

/-- A concrete math environment used to instantiate theorems at concrete
inputs (a rational stand-in for Math.PI and arbitrary total functions for
cos/sin; the break/trajectory logic under test does not depend on their
values). -/
def testEnv : MathEnv where
  pi := 355 / 113
  cos := fun _ => 1
  sin := fun _ => 0

/-! ### Basic unfolding and frame lemmas -/

theorem step_normal_eq (env : MathEnv) (m : Model)
    (hs : m.state = .NORMAL_CIRCULAR_MOTION) :
    step env m =
      if m.angularVelocity = 0 then m
      else if centripetalForce m > m.maxTension then
        collectTrajectoryPoint env (breakRope env m)
      else
        collectTrajectoryPoint env (advanceAngle env m) := by
  unfold step
  rw [hs]

theorem step_broken_eq (env : MathEnv) (m : Model)
    (hs : m.state = .ROPE_BROKEN) :
    step env m = collectTrajectoryPoint env (advanceBrokenPosition m) := by
  unfold step
  rw [hs]

theorem collect_frame (env : MathEnv) (m : Model) :
    (collectTrajectoryPoint env m).state = m.state ∧
    (collectTrajectoryPoint env m).angle = m.angle ∧
    (collectTrajectoryPoint env m).mass = m.mass ∧
    (collectTrajectoryPoint env m).angularVelocity = m.angularVelocity ∧
    (collectTrajectoryPoint env m).maxTension = m.maxTension ∧
    (collectTrajectoryPoint env m).radius = m.radius ∧
    (collectTrajectoryPoint env m).rotationDirection = m.rotationDirection ∧
    (collectTrajectoryPoint env m).centerPosition = m.centerPosition ∧
    (collectTrajectoryPoint env m).brokenPosition = m.brokenPosition ∧
    (collectTrajectoryPoint env m).brokenVelocity = m.brokenVelocity ∧
    (collectTrajectoryPoint env m).maxTrajectoryPoints = m.maxTrajectoryPoints ∧
    (collectTrajectoryPoint env m).trajectoryInterval = m.trajectoryInterval := by
  simp only [collectTrajectoryPoint]
  split <;> simp

@[simp]
theorem collect_state (env : MathEnv) (m : Model) :
    (collectTrajectoryPoint env m).state = m.state :=
  (collect_frame env m).1

@[simp]
theorem collect_angle (env : MathEnv) (m : Model) :
    (collectTrajectoryPoint env m).angle = m.angle :=
  (collect_frame env m).2.1

@[simp]
theorem collect_mass (env : MathEnv) (m : Model) :
    (collectTrajectoryPoint env m).mass = m.mass :=
  (collect_frame env m).2.2.1

@[simp]
theorem collect_angularVelocity (env : MathEnv) (m : Model) :
    (collectTrajectoryPoint env m).angularVelocity = m.angularVelocity :=
  (collect_frame env m).2.2.2.1

@[simp]
theorem collect_maxTension (env : MathEnv) (m : Model) :
    (collectTrajectoryPoint env m).maxTension = m.maxTension :=
  (collect_frame env m).2.2.2.2.1

@[simp]
theorem collect_radius (env : MathEnv) (m : Model) :
    (collectTrajectoryPoint env m).radius = m.radius :=
  (collect_frame env m).2.2.2.2.2.1

@[simp]
theorem collect_rotationDirection (env : MathEnv) (m : Model) :
    (collectTrajectoryPoint env m).rotationDirection = m.rotationDirection :=
  (collect_frame env m).2.2.2.2.2.2.1

@[simp]
theorem collect_centerPosition (env : MathEnv) (m : Model) :
    (collectTrajectoryPoint env m).centerPosition = m.centerPosition :=
  (collect_frame env m).2.2.2.2.2.2.2.1

@[simp]
theorem collect_brokenPosition (env : MathEnv) (m : Model) :
    (collectTrajectoryPoint env m).brokenPosition = m.brokenPosition :=
  (collect_frame env m).2.2.2.2.2.2.2.2.1

@[simp]
theorem collect_brokenVelocity (env : MathEnv) (m : Model) :
    (collectTrajectoryPoint env m).brokenVelocity = m.brokenVelocity :=
  (collect_frame env m).2.2.2.2.2.2.2.2.2.1

@[simp]
theorem collect_maxTrajectoryPoints (env : MathEnv) (m : Model) :
    (collectTrajectoryPoint env m).maxTrajectoryPoints = m.maxTrajectoryPoints :=
  (collect_frame env m).2.2.2.2.2.2.2.2.2.2.1

@[simp]
theorem collect_trajectoryInterval (env : MathEnv) (m : Model) :
    (collectTrajectoryPoint env m).trajectoryInterval = m.trajectoryInterval :=
  (collect_frame env m).2.2.2.2.2.2.2.2.2.2.2

theorem applyActions_cons (env : MathEnv) (a : Action) (rest : List Action)
    (m : Model) :
    applyActions env (a :: rest) m = applyActions env rest (applyAction env a m) :=
  rfl

/-- The three boundary models of the break-threshold test: mass 2, radius 1,
maxTension 50, with the angular velocity under test. -/
def boundaryModel (w : ℚ) : Model :=
  { initialModel with
    mass := 2
    radius := 1
    maxTension := 50
    angularVelocity := w }

/-- Claim C1: in NORMAL state with positive angular velocity, a step
transitions to BROKEN exactly when mass * angularVelocity^2 * radius
strictly exceeds maxTension; with mass=2, radius=1, maxTension=50, a step
at angular velocity 4.99 stays NORMAL, at 5.01 breaks, and the boundary
value 5 (force equal to the limit) does not break. -/
theorem C1_break_threshold (env : MathEnv) (m : Model)
    (hs : m.state = .NORMAL_CIRCULAR_MOTION) (hw : 0 < m.angularVelocity) :
    ((step env m).state = .ROPE_BROKEN ↔ centripetalForce m > m.maxTension) ∧
    (step env (boundaryModel (499 / 100))).state = .NORMAL_CIRCULAR_MOTION ∧
    (step env (boundaryModel (501 / 100))).state = .ROPE_BROKEN ∧
    (step env (boundaryModel 5)).state = .NORMAL_CIRCULAR_MOTION := by
  refine ⟨?_, ?_, ?_, ?_⟩
  · rw [step_normal_eq env m hs, if_neg (ne_of_gt hw)]
    by_cases hb : centripetalForce m > m.maxTension
    · rw [if_pos hb]
      simp only [collect_state]
      exact ⟨fun _ => hb, fun _ => rfl⟩
    · rw [if_neg hb]
      simp only [collect_state]
      constructor
      · intro h
        rw [show (advanceAngle env m).state = m.state from rfl, hs] at h
        exact absurd h (by simp)
      · intro h
        exact absurd h hb
  · rw [step_normal_eq env _ rfl,
      if_neg (by norm_num [boundaryModel, initialModel]),
      if_neg (by norm_num [boundaryModel, initialModel, centripetalForce])]
    simp only [collect_state]
    rfl
  · rw [step_normal_eq env _ rfl,
      if_neg (by norm_num [boundaryModel, initialModel]),
      if_pos (by norm_num [boundaryModel, initialModel, centripetalForce])]
    simp only [collect_state]
    rfl
  · rw [step_normal_eq env _ rfl,
      if_neg (by norm_num [boundaryModel, initialModel]),
      if_neg (by norm_num [boundaryModel, initialModel, centripetalForce])]
    simp only [collect_state]
    rfl

/-- Witness for C1 at env := testEnv and the 5.01 boundary model. -/
theorem C1_break_threshold_witness :
    ((step testEnv (boundaryModel (501 / 100))).state = .ROPE_BROKEN ↔
      centripetalForce (boundaryModel (501 / 100)) >
        (boundaryModel (501 / 100)).maxTension) ∧
    (step testEnv (boundaryModel (499 / 100))).state = .NORMAL_CIRCULAR_MOTION ∧
    (step testEnv (boundaryModel (501 / 100))).state = .ROPE_BROKEN ∧
    (step testEnv (boundaryModel 5)).state = .NORMAL_CIRCULAR_MOTION :=
  C1_break_threshold testEnv (boundaryModel (501 / 100)) rfl
    (by norm_num [boundaryModel, initialModel])

/-- Claim C9: reset() is idempotent, and the state it produces has angle 0,
state NORMAL, an empty trajectory buffer with counter 0, and zeroed
brokenPosition and brokenVelocity. -/
theorem C9_reset_idempotent (m : Model) :
    reset (reset m) = reset m ∧
    (reset m).angle = 0 ∧
    (reset m).state = .NORMAL_CIRCULAR_MOTION ∧
    (reset m).trajectoryPoints = [] ∧
    (reset m).trajectoryCounter = 0 ∧
    (reset m).brokenPosition = { x := 0, y := 0 } ∧
    (reset m).brokenVelocity = { x := 0, y := 0 } :=
  ⟨rfl, rfl, rfl, rfl, rfl, rfl, rfl⟩

/-- Claim C10: reset() restores state, angle, the broken snapshot and the
trajectory buffer to their initial values, and leaves mass,
angularVelocity, maxTension, radius, rotationDirection and centerPosition
unchanged. -/
theorem C10_reset_frame (m : Model) :
    (reset m).state = initialModel.state ∧
    (reset m).angle = initialModel.angle ∧
    (reset m).brokenPosition = initialModel.brokenPosition ∧
    (reset m).brokenVelocity = initialModel.brokenVelocity ∧
    (reset m).trajectoryPoints = initialModel.trajectoryPoints ∧
    (reset m).trajectoryCounter = initialModel.trajectoryCounter ∧
    (reset m).mass = m.mass ∧
    (reset m).angularVelocity = m.angularVelocity ∧
    (reset m).maxTension = m.maxTension ∧
    (reset m).radius = m.radius ∧
    (reset m).rotationDirection = m.rotationDirection ∧
    (reset m).centerPosition = m.centerPosition :=
  ⟨rfl, rfl, rfl, rfl, rfl, rfl, rfl, rfl, rfl, rfl, rfl, rfl⟩

/-! ### C4: BROKEN is absorbing for steps and parameter edits -/

theorem applyAction_state_of_broken (env : MathEnv) (a : Action) (m : Model)
    (ha : a ≠ .reset) (hb : m.state = .ROPE_BROKEN) :
    (applyAction env a m).state = .ROPE_BROKEN := by
  cases a with
  | step =>
      show (step env m).state = _
      rw [step_broken_eq env m hb]
      simp [advanceBrokenPosition, hb]
  | reset => exact absurd rfl ha
  | setMass q => exact hb
  | setAngularVelocity q => exact hb
  | setMaxTension q => exact hb
  | setRadius q => exact hb
  | setRotationDirection d => exact hb
  | clearTrajectory => exact hb

theorem applyActions_state_of_broken (env : MathEnv) (acts : List Action) :
    ∀ m : Model, Action.reset ∉ acts → m.state = .ROPE_BROKEN →
      (applyActions env acts m).state = .ROPE_BROKEN := by
  induction acts with
  | nil => exact fun m _ hb => hb
  | cons a rest ih =>
      intro m hnr hb
      rw [applyActions_cons]
      exact ih _ (fun h => hnr (List.mem_cons_of_mem a h))
        (applyAction_state_of_broken env a m
          (fun h => hnr (h ▸ List.mem_cons_self a rest)) hb)

/-- A model whose rope is already broken, for concrete instantiations. -/
def brokenTestModel : Model :=
  { initialModel with state := .ROPE_BROKEN }

/-- Claim C4: from any BROKEN model, any sequence of steps and external
scalar-parameter edits (with no reset) leaves the state BROKEN; an explicit
reset() returns the state to NORMAL. -/
theorem C4_broken_absorbing (env : MathEnv) (acts : List Action) (m : Model)
    (hnr : Action.reset ∉ acts) (hb : m.state = .ROPE_BROKEN) :
    (applyActions env acts m).state = .ROPE_BROKEN ∧
    (reset (applyActions env acts m)).state = .NORMAL_CIRCULAR_MOTION :=
  ⟨applyActions_state_of_broken env acts m hnr hb, rfl⟩

/-- Witness for C4 on a concrete broken model and action sequence. -/
theorem C4_broken_absorbing_witness :
    (applyActions testEnv
        [Action.step, Action.setMass 3, Action.setAngularVelocity 2,
          Action.step, Action.clearTrajectory, Action.step]
        brokenTestModel).state = .ROPE_BROKEN ∧
    (reset (applyActions testEnv
        [Action.step, Action.setMass 3, Action.setAngularVelocity 2,
          Action.step, Action.clearTrajectory, Action.step]
        brokenTestModel)).state = .NORMAL_CIRCULAR_MOTION :=
  C4_broken_absorbing testEnv _ brokenTestModel (by decide) rfl

/-! ### C7: the BROKEN-state step frame -/

/-- Claim C7: while BROKEN, a step leaves angle, brokenVelocity, state and
all scalar parameters unchanged; brokenPosition advances by brokenVelocity
scaled by pixelsPerMeter and timeScale with the 0.3 compression on y only,
and the result is insensitive to edits of angle and angularVelocity. -/
theorem C7_broken_step_frame (env : MathEnv) (m : Model) (a w : ℚ)
    (hb : m.state = .ROPE_BROKEN) :
    (step env m).angle = m.angle ∧
    (step env m).brokenVelocity = m.brokenVelocity ∧
    (step env m).state = m.state ∧
    (step env m).mass = m.mass ∧
    (step env m).angularVelocity = m.angularVelocity ∧
    (step env m).maxTension = m.maxTension ∧
    (step env m).radius = m.radius ∧
    (step env m).rotationDirection = m.rotationDirection ∧
    (step env m).centerPosition = m.centerPosition ∧
    (step env m).brokenPosition =
      { x := m.brokenPosition.x + m.brokenVelocity.x * pixelsPerMeter * timeScale
        y := m.brokenPosition.y +
          m.brokenVelocity.y * pixelsPerMeter * timeScale * (3 / 10) } ∧
    (step env { m with angle := a, angularVelocity := w }).brokenPosition =
      (step env m).brokenPosition := by
  have hb2 : ({ m with angle := a, angularVelocity := w } : Model).state =
      .ROPE_BROKEN := hb
  rw [step_broken_eq env m hb, step_broken_eq env _ hb2]
  refine ⟨?_, ?_, ?_, ?_, ?_, ?_, ?_, ?_, ?_, ?_, ?_⟩ <;>
    simp [advanceBrokenPosition]

/-- Witness for C7 on a concrete broken model. -/
theorem C7_broken_step_frame_witness :
    (step testEnv brokenTestModel).angle = brokenTestModel.angle ∧
    (step testEnv brokenTestModel).brokenVelocity =
      brokenTestModel.brokenVelocity ∧
    (step testEnv brokenTestModel).state = brokenTestModel.state ∧
    (step testEnv brokenTestModel).mass = brokenTestModel.mass ∧
    (step testEnv brokenTestModel).angularVelocity =
      brokenTestModel.angularVelocity ∧
    (step testEnv brokenTestModel).maxTension = brokenTestModel.maxTension ∧
    (step testEnv brokenTestModel).radius = brokenTestModel.radius ∧
    (step testEnv brokenTestModel).rotationDirection =
      brokenTestModel.rotationDirection ∧
    (step testEnv brokenTestModel).centerPosition =
      brokenTestModel.centerPosition ∧
    (step testEnv brokenTestModel).brokenPosition =
      { x := brokenTestModel.brokenPosition.x +
          brokenTestModel.brokenVelocity.x * pixelsPerMeter * timeScale
        y := brokenTestModel.brokenPosition.y +
          brokenTestModel.brokenVelocity.y * pixelsPerMeter * timeScale *
            (3 / 10) } ∧
    (step testEnv
        { brokenTestModel with angle := 1, angularVelocity := 7 }).brokenPosition =
      (step testEnv brokenTestModel).brokenPosition :=
  C7_broken_step_frame testEnv brokenTestModel 1 7 rfl

/-! ### C8: rotation-direction sign of the angle update -/

theorem advanceAngle_angle (env : MathEnv) (m : Model) :
    (advanceAngle env m).angle =
      if m.angle + m.angularVelocity * timeScale *
          (if m.rotationDirection = .CLOCKWISE then 1 else -1) ≥ 2 * env.pi then
        m.angle + m.angularVelocity * timeScale *
          (if m.rotationDirection = .CLOCKWISE then 1 else -1) - 2 * env.pi
      else if m.angle + m.angularVelocity * timeScale *
          (if m.rotationDirection = .CLOCKWISE then 1 else -1) < 0 then
        m.angle + m.angularVelocity * timeScale *
          (if m.rotationDirection = .CLOCKWISE then 1 else -1) + 2 * env.pi
      else
        m.angle + m.angularVelocity * timeScale *
          (if m.rotationDirection = .CLOCKWISE then 1 else -1) :=
  rfl

/-- Claim C8: in NORMAL state with positive angular velocity and no break,
the angle change per step is angularVelocity * timeScale * directionSign
with sign +1 for CLOCKWISE (strict increase modulo the wrap) and -1 for
COUNTERCLOCKWISE (strict decrease modulo the wrap). -/
theorem C8_direction_sign (env : MathEnv) (m : Model)
    (hs : m.state = .NORMAL_CIRCULAR_MOTION) (hw : 0 < m.angularVelocity)
    (hnb : ¬ centripetalForce m > m.maxTension)
    (h0 : 0 ≤ m.angle) (h2 : m.angle < 2 * env.pi) :
    (m.rotationDirection = .CLOCKWISE →
      ((step env m).angle = m.angle + m.angularVelocity * timeScale ∧
        m.angle < (step env m).angle) ∨
      (step env m).angle =
        m.angle + m.angularVelocity * timeScale - 2 * env.pi) ∧
    (m.rotationDirection = .COUNTERCLOCKWISE →
      ((step env m).angle = m.angle - m.angularVelocity * timeScale ∧
        (step env m).angle < m.angle) ∨
      (step env m).angle =
        m.angle - m.angularVelocity * timeScale + 2 * env.pi) := by
  have hts : (0 : ℚ) < timeScale := by norm_num [timeScale]
  have hwts : 0 < m.angularVelocity * timeScale := mul_pos hw hts
  rw [step_normal_eq env m hs, if_neg (ne_of_gt hw), if_neg hnb]
  simp only [collect_angle]
  constructor
  · intro hcw
    rw [advanceAngle_angle, hcw, if_pos rfl, mul_one]
    split_ifs with hA hB
    · right
      linarith
    · exfalso
      linarith
    · left
      exact ⟨rfl, by linarith⟩
  · intro hccw
    rw [advanceAngle_angle, hccw,
      if_neg (fun h => RotationDirection.noConfusion h), mul_neg_one]
    split_ifs with hA hB
    · exfalso
      linarith
    · right
      linarith
    · left
      constructor <;> linarith

/-- A concrete counterclockwise non-breaking model for the C8 witness. -/
def ccwModel : Model :=
  { initialModel with
    rotationDirection := .COUNTERCLOCKWISE
    angle := 1 }

/-- Witness for C8 on a concrete non-breaking counterclockwise model. -/
theorem C8_direction_sign_witness :
    (ccwModel.rotationDirection = .CLOCKWISE →
      ((step testEnv ccwModel).angle =
          ccwModel.angle + ccwModel.angularVelocity * timeScale ∧
        ccwModel.angle < (step testEnv ccwModel).angle) ∨
      (step testEnv ccwModel).angle =
        ccwModel.angle + ccwModel.angularVelocity * timeScale - 2 * testEnv.pi) ∧
    (ccwModel.rotationDirection = .COUNTERCLOCKWISE →
      ((step testEnv ccwModel).angle =
          ccwModel.angle - ccwModel.angularVelocity * timeScale ∧
        (step testEnv ccwModel).angle < ccwModel.angle) ∨
      (step testEnv ccwModel).angle =
        ccwModel.angle - ccwModel.angularVelocity * timeScale + 2 * testEnv.pi) :=
  C8_direction_sign testEnv ccwModel rfl
    (by norm_num [ccwModel, initialModel])
    (by norm_num [centripetalForce, ccwModel, initialModel])
    (by norm_num [ccwModel, initialModel])
    (by norm_num [ccwModel, initialModel, testEnv])

/-! ### C5: the angle stays in [0, 2*pi) -/

/-- Whether an interaction keeps angularVelocity inside the documented
control range [0, 2] rad/s (§6 of the spec); every non-ω interaction
qualifies. -/
def avOk : Action → Bool
  | .setAngularVelocity q => decide (0 ≤ q) && decide (q ≤ 2)
  | _ => true

theorem step_angularVelocity (env : MathEnv) (m : Model) :
    (step env m).angularVelocity = m.angularVelocity := by
  cases hst : m.state with
  | NORMAL_CIRCULAR_MOTION =>
      rw [step_normal_eq env m hst]
      split_ifs <;> simp [advanceAngle, breakRope]
  | ROPE_BROKEN =>
      rw [step_broken_eq env m hst]
      simp [advanceBrokenPosition]

theorem step_angle_bounds (env : MathEnv) (m : Model) (hpi : 3 ≤ env.pi)
    (ha0 : 0 ≤ m.angle) (ha2 : m.angle < 2 * env.pi)
    (hw0 : 0 ≤ m.angularVelocity) (hw2 : m.angularVelocity ≤ 2) :
    0 ≤ (step env m).angle ∧ (step env m).angle < 2 * env.pi := by
  cases hst : m.state with
  | ROPE_BROKEN =>
      rw [step_broken_eq env m hst]
      simp only [collect_angle]
      exact ⟨ha0, ha2⟩
  | NORMAL_CIRCULAR_MOTION =>
      rw [step_normal_eq env m hst]
      split_ifs with h0 hb
      · exact ⟨ha0, ha2⟩
      · simp only [collect_angle]
        exact ⟨ha0, ha2⟩
      · simp only [collect_angle]
        rw [advanceAngle_angle]
        have hts0 : (0 : ℚ) < timeScale := by norm_num [timeScale]
        have hd0 : 0 ≤ m.angularVelocity * timeScale := mul_nonneg hw0 hts0.le
        have hd2 : m.angularVelocity * timeScale ≤ 4 / 125 := by
          have h := mul_le_mul_of_nonneg_right hw2 hts0.le
          have h2 : 2 * timeScale = 4 / 125 := by norm_num [timeScale]
          linarith
        have hpi6 : (6 : ℚ) ≤ 2 * env.pi := by linarith
        cases hdir : m.rotationDirection with
        | CLOCKWISE =>
            rw [if_pos rfl, mul_one]
            split_ifs with hA hB <;> constructor <;> linarith
        | COUNTERCLOCKWISE =>
            rw [if_neg (fun h => RotationDirection.noConfusion h), mul_neg_one]
            split_ifs with hA hB <;> constructor <;> linarith

theorem applyAction_angle_inv (env : MathEnv) (a : Action) (m : Model)
    (hpi : 3 ≤ env.pi) (hok : avOk a = true)
    (h : (0 ≤ m.angle ∧ m.angle < 2 * env.pi) ∧
      0 ≤ m.angularVelocity ∧ m.angularVelocity ≤ 2) :
    (0 ≤ (applyAction env a m).angle ∧
      (applyAction env a m).angle < 2 * env.pi) ∧
    0 ≤ (applyAction env a m).angularVelocity ∧
      (applyAction env a m).angularVelocity ≤ 2 := by
  obtain ⟨⟨ha0, ha2⟩, hw0, hw2⟩ := h
  cases a with
  | step =>
      refine ⟨step_angle_bounds env m hpi ha0 ha2 hw0 hw2, ?_⟩
      rw [show applyAction env .step m = step env m from rfl,
        step_angularVelocity]
      exact ⟨hw0, hw2⟩
  | setAngularVelocity q =>
      simp only [avOk, Bool.and_eq_true, decide_eq_true_eq] at hok
      exact ⟨⟨ha0, ha2⟩, hok⟩
  | setMass q => exact ⟨⟨ha0, ha2⟩, hw0, hw2⟩
  | setMaxTension q => exact ⟨⟨ha0, ha2⟩, hw0, hw2⟩
  | setRadius q => exact ⟨⟨ha0, ha2⟩, hw0, hw2⟩
  | setRotationDirection d => exact ⟨⟨ha0, ha2⟩, hw0, hw2⟩
  | clearTrajectory => exact ⟨⟨ha0, ha2⟩, hw0, hw2⟩
  | reset =>
      exact ⟨⟨le_refl 0, show (0 : ℚ) < 2 * env.pi by linarith⟩, hw0, hw2⟩

theorem applyActions_angle_inv (env : MathEnv) (acts : List Action)
    (hpi : 3 ≤ env.pi) :
    ∀ m : Model, acts.all avOk = true →
      ((0 ≤ m.angle ∧ m.angle < 2 * env.pi) ∧
        0 ≤ m.angularVelocity ∧ m.angularVelocity ≤ 2) →
      ((0 ≤ (applyActions env acts m).angle ∧
        (applyActions env acts m).angle < 2 * env.pi) ∧
        0 ≤ (applyActions env acts m).angularVelocity ∧
          (applyActions env acts m).angularVelocity ≤ 2) := by
  induction acts with
  | nil => exact fun m _ h => h
  | cons a rest ih =>
      intro m hall h
      rw [List.all_cons, Bool.and_eq_true] at hall
      rw [applyActions_cons]
      exact ih _ hall.2 (applyAction_angle_inv env a m hpi hall.1 h)

/-- Claim C5: starting from the initial model (angle = 0), any sequence of
steps and external edits that keeps angularVelocity inside the documented
range [0, 2] (other scalar parameters arbitrary) leaves the angle inside
[0, 2*pi) after every interaction (stated for the environment hypothesis
3 <= pi, true of Math.PI). -/
theorem C5_angle_invariant (env : MathEnv) (acts : List Action)
    (hpi : 3 ≤ env.pi) (hok : acts.all avOk = true) :
    0 ≤ (applyActions env acts initialModel).angle ∧
    (applyActions env acts initialModel).angle < 2 * env.pi :=
  (applyActions_angle_inv env acts hpi initialModel hok
    ⟨⟨le_refl 0, show (0 : ℚ) < 2 * env.pi by linarith⟩,
      by norm_num [initialModel]⟩).1

/-- Witness for C5 on a concrete interaction sequence. -/
theorem C5_angle_invariant_witness :
    0 ≤ (applyActions testEnv
        [Action.step, Action.setAngularVelocity 2, Action.step,
          Action.setRotationDirection .COUNTERCLOCKWISE, Action.step,
          Action.reset, Action.step]
        initialModel).angle ∧
    (applyActions testEnv
        [Action.step, Action.setAngularVelocity 2, Action.step,
          Action.setRotationDirection .COUNTERCLOCKWISE, Action.step,
          Action.reset, Action.step]
        initialModel).angle < 2 * testEnv.pi :=
  C5_angle_invariant testEnv _ (by norm_num [testEnv]) (by decide)

/-! ### C6: bounded trajectory buffer with FIFO eviction -/

theorem collect_length_le (env : MathEnv) (m : Model)
    (h : m.trajectoryPoints.length ≤ m.maxTrajectoryPoints) :
    (collectTrajectoryPoint env m).trajectoryPoints.length ≤
      (collectTrajectoryPoint env m).maxTrajectoryPoints := by
  simp only [collectTrajectoryPoint]
  split_ifs with h1 h2 <;>
    simp_all [List.length_append, List.length_tail]

theorem applyAction_length_le (env : MathEnv) (a : Action) (m : Model)
    (h : m.trajectoryPoints.length ≤ m.maxTrajectoryPoints) :
    (applyAction env a m).trajectoryPoints.length ≤
      (applyAction env a m).maxTrajectoryPoints := by
  cases a with
  | step =>
      show (step env m).trajectoryPoints.length ≤
        (step env m).maxTrajectoryPoints
      cases hst : m.state with
      | NORMAL_CIRCULAR_MOTION =>
          rw [step_normal_eq env m hst]
          split_ifs with h0 hb
          · exact h
          · exact collect_length_le env _ h
          · exact collect_length_le env _ h
      | ROPE_BROKEN =>
          rw [step_broken_eq env m hst]
          exact collect_length_le env _ h
  | reset => exact Nat.zero_le _
  | clearTrajectory => exact Nat.zero_le _
  | setMass q => exact h
  | setAngularVelocity q => exact h
  | setMaxTension q => exact h
  | setRadius q => exact h
  | setRotationDirection d => exact h

theorem applyAction_maxTrajectoryPoints (env : MathEnv) (a : Action)
    (m : Model) :
    (applyAction env a m).maxTrajectoryPoints = m.maxTrajectoryPoints := by
  cases a with
  | step =>
      show (step env m).maxTrajectoryPoints = m.maxTrajectoryPoints
      cases hst : m.state with
      | NORMAL_CIRCULAR_MOTION =>
          rw [step_normal_eq env m hst]
          split_ifs <;> simp [advanceAngle, breakRope]
      | ROPE_BROKEN =>
          rw [step_broken_eq env m hst]
          simp [advanceBrokenPosition]
  | reset => rfl
  | clearTrajectory => rfl
  | setMass q => rfl
  | setAngularVelocity q => rfl
  | setMaxTension q => rfl
  | setRadius q => rfl
  | setRotationDirection d => rfl

theorem applyActions_length_le (env : MathEnv) (acts : List Action) :
    ∀ m : Model, m.trajectoryPoints.length ≤ m.maxTrajectoryPoints →
      (applyActions env acts m).trajectoryPoints.length ≤
        (applyActions env acts m).maxTrajectoryPoints := by
  induction acts with
  | nil => exact fun m h => h
  | cons a rest ih =>
      intro m h
      rw [applyActions_cons]
      exact ih _ (applyAction_length_le env a m h)

theorem applyActions_maxTrajectoryPoints (env : MathEnv) (acts : List Action) :
    ∀ m : Model,
      (applyActions env acts m).maxTrajectoryPoints = m.maxTrajectoryPoints := by
  induction acts with
  | nil => exact fun m => rfl
  | cons a rest ih =>
      intro m
      rw [applyActions_cons, ih, applyAction_maxTrajectoryPoints]

/-- Claim C6: starting from the initial model, every sequence of
interactions keeps trajectoryPoints.length at or below
maxTrajectoryPoints, which stays at its default of 200; and when a sample
fires with the buffer exactly at a positive capacity, the new buffer is
the old one with its oldest (head) point dropped and the new point
appended (strict FIFO eviction). -/
theorem C6_trajectory_bound (env : MathEnv) (acts : List Action) (m : Model)
    (hfull : m.trajectoryPoints.length = m.maxTrajectoryPoints)
    (hfire : m.trajectoryCounter + 1 ≥ m.trajectoryInterval)
    (hpos : 0 < m.maxTrajectoryPoints) :
    ((applyActions env acts initialModel).trajectoryPoints.length ≤
        (applyActions env acts initialModel).maxTrajectoryPoints ∧
      (applyActions env acts initialModel).maxTrajectoryPoints = 200) ∧
    (collectTrajectoryPoint env m).trajectoryPoints =
      m.trajectoryPoints.tail ++ [getBlockPosition env m] := by
  refine ⟨⟨applyActions_length_le env acts initialModel (Nat.zero_le _),
    applyActions_maxTrajectoryPoints env acts initialModel⟩, ?_⟩
  simp only [collectTrajectoryPoint]
  rw [if_pos hfire]
  have hlen : (m.trajectoryPoints ++ [getBlockPosition env m]).length >
      m.maxTrajectoryPoints := by
    simp [List.length_append, hfull]
  rw [if_pos hlen]
  cases hp : m.trajectoryPoints with
  | nil =>
      rw [hp] at hfull
      simp at hfull
      omega
  | cons x xs => simp

/-- A model with a trajectory buffer exactly at capacity and a counter
about to fire, for the C6 witness. -/
def fullModel : Model :=
  { initialModel with
    trajectoryPoints := [{ x := 1, y := 2 }]
    maxTrajectoryPoints := 1
    trajectoryCounter := 2 }

/-- Witness for C6 at a concrete action sequence and at-capacity model. -/
theorem C6_trajectory_bound_witness :
    ((applyActions testEnv [Action.step, Action.step, Action.step]
        initialModel).trajectoryPoints.length ≤
      (applyActions testEnv [Action.step, Action.step, Action.step]
        initialModel).maxTrajectoryPoints ∧
      (applyActions testEnv [Action.step, Action.step, Action.step]
        initialModel).maxTrajectoryPoints = 200) ∧
    (collectTrajectoryPoint testEnv fullModel).trajectoryPoints =
      fullModel.trajectoryPoints.tail ++
        [getBlockPosition testEnv fullModel] :=
  C6_trajectory_bound testEnv [Action.step, Action.step, Action.step]
    fullModel rfl (by decide) (by decide)

/-! ### C2: the break-instant snapshot -/

theorem getBlockPosition_normal (env : MathEnv) (m : Model)
    (hs : m.state = .NORMAL_CIRCULAR_MOTION) :
    getBlockPosition env m =
      { x := m.centerPosition.x + m.radius * pixelsPerMeter * env.cos m.angle
        y := m.centerPosition.y +
          m.radius * pixelsPerMeter * env.sin m.angle * (3 / 10) } := by
  unfold getBlockPosition
  rw [hs]

/-- Claim C2 (amended): at the NORMAL-to-BROKEN transition the step does
not advance the angle, snapshots into brokenPosition the body position
computed from the current angle (with the 0.3 projection squash on y),
and snapshots into brokenVelocity the tangential velocity with components
linearVelocity * cos/sin of the tangent angle angle + pi/2 (no projection
squash); the tangent angle is angle + pi/2 for BOTH rotation directions —
the code does not adjust it for rotationDirection, so both directions
yield the same brokenVelocity. -/
theorem C2_break_snapshot (env : MathEnv) (m : Model)
    (hs : m.state = .NORMAL_CIRCULAR_MOTION) (hw : 0 < m.angularVelocity)
    (hb : centripetalForce m > m.maxTension) :
    (step env m).angle = m.angle ∧
    (step env m).state = .ROPE_BROKEN ∧
    (step env m).brokenPosition =
      { x := m.centerPosition.x + m.radius * pixelsPerMeter * env.cos m.angle
        y := m.centerPosition.y +
          m.radius * pixelsPerMeter * env.sin m.angle * (3 / 10) } ∧
    (step env m).brokenVelocity =
      { x := linearVelocity m * env.cos (m.angle + env.pi / 2)
        y := linearVelocity m * env.sin (m.angle + env.pi / 2) } ∧
    (step env { m with rotationDirection := .CLOCKWISE }).brokenVelocity =
      (step env { m with rotationDirection := .COUNTERCLOCKWISE }).brokenVelocity := by
  have hs1 : ({ m with rotationDirection := RotationDirection.CLOCKWISE } :
      Model).state = .NORMAL_CIRCULAR_MOTION := hs
  have hs2 : ({ m with rotationDirection := RotationDirection.COUNTERCLOCKWISE } :
      Model).state = .NORMAL_CIRCULAR_MOTION := hs
  have hw1 : ¬ ({ m with rotationDirection := RotationDirection.CLOCKWISE } :
      Model).angularVelocity = 0 := ne_of_gt hw
  have hw2 : ¬ ({ m with rotationDirection := RotationDirection.COUNTERCLOCKWISE } :
      Model).angularVelocity = 0 := ne_of_gt hw
  have hb1 : centripetalForce
      ({ m with rotationDirection := RotationDirection.CLOCKWISE } : Model) >
      ({ m with rotationDirection := RotationDirection.CLOCKWISE } :
        Model).maxTension := hb
  have hb2 : centripetalForce
      ({ m with rotationDirection := RotationDirection.COUNTERCLOCKWISE } : Model) >
      ({ m with rotationDirection := RotationDirection.COUNTERCLOCKWISE } :
        Model).maxTension := hb
  rw [step_normal_eq env m hs, if_neg (ne_of_gt hw), if_pos hb,
    step_normal_eq env _ hs1, if_neg hw1, if_pos hb1,
    step_normal_eq env _ hs2, if_neg hw2, if_pos hb2]
  refine ⟨?_, ?_, ?_, ?_, ?_⟩
  · simp only [collect_angle]
    rfl
  · simp only [collect_state]
    rfl
  · simp only [collect_brokenPosition]
    rw [show (breakRope env m).brokenPosition = getBlockPosition env m from rfl,
      getBlockPosition_normal env m hs]
  · simp only [collect_brokenVelocity]
    rfl
  · simp only [collect_brokenVelocity]
    rfl

/-- Witness for C2 at the concrete breaking boundary model. -/
theorem C2_break_snapshot_witness :
    (step testEnv (boundaryModel (501 / 100))).angle =
      (boundaryModel (501 / 100)).angle ∧
    (step testEnv (boundaryModel (501 / 100))).state = .ROPE_BROKEN ∧
    (step testEnv (boundaryModel (501 / 100))).brokenPosition =
      { x := (boundaryModel (501 / 100)).centerPosition.x +
          (boundaryModel (501 / 100)).radius * pixelsPerMeter *
            testEnv.cos (boundaryModel (501 / 100)).angle
        y := (boundaryModel (501 / 100)).centerPosition.y +
          (boundaryModel (501 / 100)).radius * pixelsPerMeter *
            testEnv.sin (boundaryModel (501 / 100)).angle * (3 / 10) } ∧
    (step testEnv (boundaryModel (501 / 100))).brokenVelocity =
      { x := linearVelocity (boundaryModel (501 / 100)) *
          testEnv.cos ((boundaryModel (501 / 100)).angle + testEnv.pi / 2)
        y := linearVelocity (boundaryModel (501 / 100)) *
          testEnv.sin ((boundaryModel (501 / 100)).angle + testEnv.pi / 2) } ∧
    (step testEnv { boundaryModel (501 / 100) with
        rotationDirection := .CLOCKWISE }).brokenVelocity =
      (step testEnv { boundaryModel (501 / 100) with
        rotationDirection := .COUNTERCLOCKWISE }).brokenVelocity :=
  C2_break_snapshot testEnv (boundaryModel (501 / 100)) rfl
    (by norm_num [boundaryModel, initialModel])
    (by norm_num [centripetalForce, boundaryModel, initialModel])

/-- The brokenVelocity the claim asserts: tangent direction adjusted for
the rotation direction. Modelled from the spec sentence "direction =
tangent to the circle at the current angle, adjusted for rotation
direction", with tangent angle angle + dir * pi/2 and dir = +1 for
CLOCKWISE, -1 for COUNTERCLOCKWISE, for comparison with the code's
getCurrentVelocity (which uses angle + pi/2 unconditionally). -/
def specAdjustedBrokenVelocity (env : MathEnv) (m : Model) : Vector2 :=
  let dir : ℚ := if m.rotationDirection = .CLOCKWISE then 1 else -1
  let tangentAngle := m.angle + dir * (env.pi / 2)
  { x := linearVelocity m * env.cos tangentAngle
    y := linearVelocity m * env.sin tangentAngle }

/-- A math environment whose sine distinguishes pi/2 from -pi/2 (any odd
nonzero function does; the real sine also does). -/
def oddEnv : MathEnv where
  pi := 3
  cos := fun _ => 0
  sin := fun q => q

/-- A breaking model rotating counterclockwise. -/
def ccwBreakModel : Model :=
  { boundaryModel (501 / 100) with rotationDirection := .COUNTERCLOCKWISE }

/-- Counterexample to C2 as stated: for a counterclockwise model the
brokenVelocity captured by the code differs from the direction-adjusted
tangential velocity the claim describes. -/
theorem C2_counterexample :
    (step oddEnv ccwBreakModel).brokenVelocity ≠
      specAdjustedBrokenVelocity oddEnv ccwBreakModel := by
  rw [step_normal_eq oddEnv ccwBreakModel rfl,
    if_neg (by norm_num [ccwBreakModel, boundaryModel, initialModel]),
    if_pos (by norm_num [centripetalForce, ccwBreakModel, boundaryModel,
      initialModel])]
  simp only [collect_brokenVelocity]
  show getCurrentVelocity oddEnv ccwBreakModel ≠ _
  simp only [getCurrentVelocity, specAdjustedBrokenVelocity, linearVelocity]
  intro h
  have hy := congrArg Vector2.y h
  norm_num [ccwBreakModel, boundaryModel, initialModel, oddEnv] at hy
  rw [if_neg (fun hc => RotationDirection.noConfusion hc)] at hy
  norm_num at hy

/-! ### C3: trajectory sampling cadence -/

/-- A model on which step() does not take the early return: either the
rope is already broken, or the body is moving (angularVelocity nonzero).
On such models every step — the breaking step included — reaches
collectTrajectoryPoint, and the class is closed under step. -/
def NoSkip (m : Model) : Prop :=
  m.state = .NORMAL_CIRCULAR_MOTION → m.angularVelocity ≠ 0

theorem NoSkip_of_fields (m1 m2 : Model) (hstate : m1.state = m2.state)
    (hw : m1.angularVelocity = m2.angularVelocity)
    (h : NoSkip m2) : NoSkip m1 :=
  fun hs => hw ▸ h (hstate ▸ hs)

theorem collect_tr (env : MathEnv) (m : Model) :
    if m.trajectoryCounter + 1 ≥ m.trajectoryInterval then
      (collectTrajectoryPoint env m).trajectoryCounter = 0 ∧
      (collectTrajectoryPoint env m).trajectoryPoints.length =
        (if m.trajectoryPoints.length + 1 > m.maxTrajectoryPoints then
          m.trajectoryPoints.length
        else m.trajectoryPoints.length + 1)
    else
      (collectTrajectoryPoint env m).trajectoryCounter =
        m.trajectoryCounter + 1 ∧
      (collectTrajectoryPoint env m).trajectoryPoints = m.trajectoryPoints := by
  simp only [collectTrajectoryPoint]
  split_ifs with h1 h2 h3 <;>
    simp_all [List.length_append, List.length_tail]

theorem step_tr (env : MathEnv) (m : Model) (h : NoSkip m) :
    (step env m).trajectoryInterval = m.trajectoryInterval ∧
    (step env m).maxTrajectoryPoints = m.maxTrajectoryPoints ∧
    NoSkip (step env m) ∧
    (if m.trajectoryCounter + 1 ≥ m.trajectoryInterval then
      (step env m).trajectoryCounter = 0 ∧
      (step env m).trajectoryPoints.length =
        (if m.trajectoryPoints.length + 1 > m.maxTrajectoryPoints then
          m.trajectoryPoints.length
        else m.trajectoryPoints.length + 1)
    else
      (step env m).trajectoryCounter = m.trajectoryCounter + 1 ∧
      (step env m).trajectoryPoints = m.trajectoryPoints) := by
  cases hst : m.state with
  | NORMAL_CIRCULAR_MOTION =>
      have hw := h hst
      rw [step_normal_eq env m hst, if_neg hw]
      by_cases hb : centripetalForce m > m.maxTension
      · rw [if_pos hb]
        refine ⟨by simp [breakRope], by simp [breakRope], ?_, ?_⟩
        · intro hs
          rw [collect_state] at hs
          exact SimulationState.noConfusion hs
        · exact collect_tr env (breakRope env m)
      · rw [if_neg hb]
        refine ⟨by simp [advanceAngle], by simp [advanceAngle], ?_, ?_⟩
        · refine NoSkip_of_fields _ m ?_ ?_ h <;> simp [advanceAngle]
        · exact collect_tr env (advanceAngle env m)
  | ROPE_BROKEN =>
      rw [step_broken_eq env m hst]
      refine ⟨by simp [advanceBrokenPosition], by simp [advanceBrokenPosition],
        ?_, ?_⟩
      · intro hs
        rw [collect_state] at hs
        have hs' : m.state = .NORMAL_CIRCULAR_MOTION := hs
        rw [hst] at hs'
        exact SimulationState.noConfusion hs'
      · exact collect_tr env (advanceBrokenPosition m)

theorem step3_cadence (env : MathEnv) (m : Model) (h : NoSkip m)
    (hi : m.trajectoryInterval = 3) (hc : m.trajectoryCounter = 0)
    (hlen : m.trajectoryPoints.length < m.maxTrajectoryPoints) :
    (step env (step env (step env m))).trajectoryPoints.length =
      m.trajectoryPoints.length + 1 ∧
    (step env (step env (step env m))).trajectoryCounter = 0 ∧
    (step env (step env (step env m))).trajectoryInterval = 3 ∧
    (step env (step env (step env m))).maxTrajectoryPoints =
      m.maxTrajectoryPoints ∧
    NoSkip (step env (step env (step env m))) := by
  obtain ⟨hi1, hx1, hns1, hcp1⟩ := step_tr env m h
  rw [hi, hc, if_neg (by omega)] at hcp1
  obtain ⟨hc1, hp1⟩ := hcp1
  obtain ⟨hi2, hx2, hns2, hcp2⟩ := step_tr env (step env m) hns1
  rw [hc1, hi1, hi, if_neg (by omega)] at hcp2
  obtain ⟨hc2, hp2⟩ := hcp2
  obtain ⟨hi3, hx3, hns3, hcp3⟩ := step_tr env (step env (step env m)) hns2
  rw [hc2, hi2, hi1, hi, if_pos (by omega), hp2, hp1, hx2, hx1,
    if_neg (by omega)] at hcp3
  obtain ⟨hc3, hl3⟩ := hcp3
  refine ⟨hl3, hc3, ?_, ?_, ?_⟩
  · rw [hi3, hi2, hi1, hi]
  · rw [hx3, hx2, hx1]
  · exact hns3

theorem steps_cadence (env : MathEnv) (n : ℕ) :
    ∀ m : Model, NoSkip m → m.trajectoryInterval = 3 →
      m.trajectoryCounter = 0 →
      m.trajectoryPoints.length + n ≤ m.maxTrajectoryPoints →
      ((step env)^[3 * n] m).trajectoryPoints.length =
        m.trajectoryPoints.length + n ∧
      ((step env)^[3 * n] m).trajectoryCounter = 0 ∧
      ((step env)^[3 * n] m).trajectoryInterval = 3 ∧
      ((step env)^[3 * n] m).maxTrajectoryPoints = m.maxTrajectoryPoints ∧
      NoSkip ((step env)^[3 * n] m) := by
  induction n with
  | zero => exact fun m h hi hc _ => ⟨rfl, hc, hi, rfl, h⟩
  | succ k ih =>
      intro m h hi hc hlen
      have h3 : (step env)^[3] m = step env (step env (step env m)) := rfl
      have hsplit : (step env)^[3 * (k + 1)] m =
          (step env)^[3 * k] ((step env)^[3] m) := by
        rw [show 3 * (k + 1) = 3 * k + 3 by ring, Function.iterate_add_apply]
      obtain ⟨hl3, hc3, hi3, hx3, hns3⟩ :=
        step3_cadence env m h hi hc (by omega)
      rw [hsplit, h3]
      obtain ⟨ihl, ihc, ihi, ihx, ihns⟩ :=
        ih (step env (step env (step env m))) hns3 hi3 hc3
          (by rw [hl3, hx3]; omega)
      refine ⟨?_, ihc, ihi, ?_, ihns⟩
      · rw [ihl, hl3]
        omega
      · rw [ihx, hx3]

/-- A NORMAL model at rest (angularVelocity 0) with a trajectory counter
one tick away from firing. -/
def restModel : Model :=
  { initialModel with
    angularVelocity := 0
    trajectoryCounter := 2 }

/-- Counterexample to C3 as stated: with state NORMAL and angularVelocity
0 a step is a complete no-op — the trajectory sampler is NOT invoked even
though its counter is due to fire (had it run, the counter would have
reset to 0 and a point would have been appended). -/
theorem C3_counterexample :
    step testEnv restModel = restModel ∧
    restModel.trajectoryCounter + 1 ≥ restModel.trajectoryInterval ∧
    restModel.trajectoryPoints = [] := by
  refine ⟨?_, by decide, rfl⟩
  rw [step_normal_eq testEnv restModel rfl,
    if_pos (show restModel.angularVelocity = 0 from rfl)]

/-- Claim C3 (amended): a step in NORMAL state with angularVelocity 0
returns early and skips trajectory sampling entirely; every other step
(state BROKEN, or NORMAL with nonzero angularVelocity, whether or not
the rope breaks during the sequence) invokes the sampler, and with
trajectoryInterval 3 and trajectoryCounter 0 exactly one point is
appended per 3 consecutive steps: 30 steps append exactly 10 points
(absent capacity overflow). -/
theorem C3_sampling (env : MathEnv) (m m2 : Model)
    (hs : m.state = .NORMAL_CIRCULAR_MOTION) (h0 : m.angularVelocity = 0)
    (hns : NoSkip m2) (hi : m2.trajectoryInterval = 3)
    (hc : m2.trajectoryCounter = 0)
    (hlen : m2.trajectoryPoints.length + 10 ≤ m2.maxTrajectoryPoints) :
    step env m = m ∧
    ((step env)^[30] m2).trajectoryPoints.length =
      m2.trajectoryPoints.length + 10 := by
  constructor
  · rw [step_normal_eq env m hs, if_pos h0]
  · have h30 : (30 : ℕ) = 3 * 10 := rfl
    rw [h30]
    exact (steps_cadence env 10 m2 hns hi hc hlen).1

/-- Witness for C3 on the rest model and a NORMAL model whose rope breaks
on the first step of the 30. -/
theorem C3_sampling_witness :
    step testEnv restModel = restModel ∧
    ((step testEnv)^[30] (boundaryModel (501 / 100))).trajectoryPoints.length =
      (boundaryModel (501 / 100)).trajectoryPoints.length + 10 :=
  C3_sampling testEnv restModel (boundaryModel (501 / 100)) rfl rfl
    (fun _ => by norm_num [boundaryModel, initialModel]) rfl rfl (by decide)

end CircularMotion
